import Mathlib

/-!
Verification of `apps/core/management/commands/check_production_ready.py`.

The command reads a fixed set of attributes from the ambient Django
settings provider, branches on them, and writes styled message blocks to
standard output.  We embed the settings provider as an explicit structure,
each `self.stdout.write` call as one element of a message list, and the
body of `Command.handle` as a pure function from settings to that list.
-/

namespace CheckProductionReady

/-- The style classes of Django's `BaseCommand.style` used by the command. -/
inductive Style where
  | success
  | warning
  | error
  deriving DecidableEq, Repr

/-- The settings-provider attributes read by `Command.handle`.
`TENANT_DOMAIN` and `TENANT_MODEL` are only probed with `hasattr` /
`getattr` with a default, so they are optional; the other three are read
unconditionally. -/
structure Settings where
  DEBUG : Bool
  SECRET_KEY : String
  TENANT_DOMAIN : Option String
  ALLOWED_HOSTS : List String
  TENANT_MODEL : Option String
  deriving DecidableEq, Repr

/-- Python's substring test `needle in haystack` on strings. -/
def containsSubstr (needle haystack : String) : Bool :=
  decide (List.IsInfix needle.data haystack.data)

/-- Python's repetition `s * n` on strings. -/
def pyRepeat (s : String) (n : Nat) : String :=
  String.join (List.replicate n s)

/-- One message block, i.e. the argument of one `self.stdout.write` call.
Constructors carry the dynamic parts interpolated into the text. -/
inductive Msg where
  | banner
  | debugWarning
  | secretKeyWarning
  | tenantDomainOk (value : String)
  | tenantDomainMissing
  | allowedHostsOk
  | allowedHostsErr
  | tenantModelOk
  | summary (tenantModel : String)
  deriving DecidableEq, Repr

/-- The exact styled text each block renders to, transcribed from the
source.  In the banner, Python's adjacent string literals form one atom
before `* 60` applies, so the whole two-line literal is repeated 60
times. -/
def render : Msg → Style × String
  | .banner =>
      (.success, pyRepeat "🎯 Verificando configuración para producción en Render\n=" 60)
  | .debugWarning =>
      (.warning, "⚠️  Ejecutando en modo DEBUG (desarrollo)\n   En producción, Render configurará DEBUG=False automáticamente")
  | .secretKeyWarning =>
      (.warning, "⚠️  SECRET_KEY de desarrollo detectada\n   En producción, configurar SECRET_KEY segura en variables de entorno")
  | .tenantDomainOk v =>
      (.success, "✅ TENANT_DOMAIN configurado: " ++ v)
  | .tenantDomainMissing =>
      (.error, "❌ TENANT_DOMAIN no configurado")
  | .allowedHostsOk =>
      (.success, "✅ ALLOWED_HOSTS incluye *.zentoerp.com")
  | .allowedHostsErr =>
      (.error, "❌ ALLOWED_HOSTS no incluye *.zentoerp.com")
  | .tenantModelOk =>
      (.success, "✅ Modelos de tenant configurados correctamente")
  | .summary tm =>
      (.success, "\n🎉 Configuración base lista para producción!\n   Dominio objetivo: zentoerp.com\n   Subdominios: *.zentoerp.com\n   Modelo tenant: " ++ tm ++ "\n\n📋 Pasos para producción:\n   1. Crear servicios en Render (PostgreSQL, Redis, Web)\n   2. Configurar variables de entorno en Render\n   3. Configurar DNS (A record + CNAME *)\n   4. Deploy automático desde branch production\n\n🔧 Variables críticas para Render:\n   - SECRET_KEY: Generar clave segura\n   - DEBUG: False\n   - ALLOWED_HOSTS: zentoerp.com,*.zentoerp.com\n   - DB_* : Credenciales de PostgreSQL\n   - REDIS_URL: URL de Redis\n")

/-- Lines 18–24: `if settings.DEBUG: write(WARNING ...)`. -/
def checkDebug (s : Settings) : List Msg :=
  if s.DEBUG then [.debugWarning] else []

/-- Lines 27–33: `if 'django-insecure' in settings.SECRET_KEY: write(WARNING ...)`. -/
def checkSecretKey (s : Settings) : List Msg :=
  if containsSubstr "django-insecure" s.SECRET_KEY then [.secretKeyWarning] else []

/-- Lines 36–43: `if hasattr(settings, 'TENANT_DOMAIN')` then a success line
interpolating the value, else an error line. -/
def checkTenantDomain (s : Settings) : List Msg :=
  match s.TENANT_DOMAIN with
  | some v => [.tenantDomainOk v]
  | none => [.tenantDomainMissing]

/-- Lines 46–53: `if '*.zentoerp.com' in settings.ALLOWED_HOSTS` then a
success line, else an error line. -/
def checkAllowedHosts (s : Settings) : List Msg :=
  if s.ALLOWED_HOSTS.contains "*.zentoerp.com" then [.allowedHostsOk] else [.allowedHostsErr]

/-- Lines 56–59: `if hasattr(settings, 'TENANT_MODEL') and
settings.TENANT_MODEL == 'tenants.Tenant'` then a success line; no else
branch. -/
def checkTenantModel (s : Settings) : List Msg :=
  match s.TENANT_MODEL with
  | some m => if m = "tenants.Tenant" then [.tenantModelOk] else []
  | none => []

/-- Line 66: `getattr(settings, "TENANT_MODEL", "No configurado")`. -/
def tenantModelDisplay (s : Settings) : String :=
  s.TENANT_MODEL.getD "No configurado"

/-- The body of `Command.handle` (lines 9–79): the sequence of message
blocks written to standard output, in program order. -/
def handle (s : Settings) : List Msg :=
  [.banner] ++ checkDebug s ++ checkSecretKey s ++ checkTenantDomain s
    ++ checkAllowedHosts s ++ checkTenantModel s ++ [.summary (tenantModelDisplay s)]

/-- A settings provider on which even the unconditionally read attributes
(`DEBUG`, `SECRET_KEY`, `ALLOWED_HOSTS`) may be absent: reading an absent
one raises. -/
structure OptSettings where
  DEBUG : Option Bool
  SECRET_KEY : Option String
  TENANT_DOMAIN : Option String
  ALLOWED_HOSTS : Option (List String)
  TENANT_MODEL : Option String
  deriving DecidableEq, Repr

/-- Reading a required attribute: absence raises (the exception carries the
attribute name), as Django's settings object does. -/
def readAttr {α : Type} (name : String) : Option α → Except String α
  | some v => .ok v
  | none => .error ("settings object has no attribute " ++ name)

/-- `Command.handle` run against a possibly deficient provider.  The
command contains no try/except, so the first failing attribute read
propagates; `TENANT_DOMAIN` and `TENANT_MODEL` are only probed with
`hasattr`/`getattr` with a default and never raise. -/
def handleE (s : OptSettings) : Except String (List Msg) :=
  (readAttr "DEBUG" s.DEBUG).bind fun dbg =>
    (readAttr "SECRET_KEY" s.SECRET_KEY).bind fun key =>
      (readAttr "ALLOWED_HOSTS" s.ALLOWED_HOSTS).bind fun hosts =>
        .ok (handle ⟨dbg, key, s.TENANT_DOMAIN, hosts, s.TENANT_MODEL⟩)

/-- Modelled from the spec: the process exit-code mapping lives in the
host framework, not in this repository.  Per spec §6/§7 the command exits
with code 0 when `handle` returns normally and with a non-zero code when
an exception propagates out of it. -/
def exitCode (s : OptSettings) : Nat :=
  match handleE s with
  | .ok _ => 0
  | .error _ => 1

/-- View a complete settings provider as one whose required attributes are
all present. -/
def Settings.toOpt (s : Settings) : OptSettings :=
  ⟨some s.DEBUG, some s.SECRET_KEY, s.TENANT_DOMAIN, some s.ALLOWED_HOSTS, s.TENANT_MODEL⟩

/-- State-passing form of `Command.handle`: each step receives the settings
state and the output written so far, and returns the (possibly updated)
settings state together with the extended output.  Transcribed write by
write from the source, which only ever reads the settings. -/
def stepBanner (st : Settings × List Msg) : Settings × List Msg :=
  (st.1, st.2 ++ [.banner])

def stepDebug (st : Settings × List Msg) : Settings × List Msg :=
  (st.1, st.2 ++ checkDebug st.1)

def stepSecretKey (st : Settings × List Msg) : Settings × List Msg :=
  (st.1, st.2 ++ checkSecretKey st.1)

def stepTenantDomain (st : Settings × List Msg) : Settings × List Msg :=
  (st.1, st.2 ++ checkTenantDomain st.1)

def stepAllowedHosts (st : Settings × List Msg) : Settings × List Msg :=
  (st.1, st.2 ++ checkAllowedHosts st.1)

def stepTenantModel (st : Settings × List Msg) : Settings × List Msg :=
  (st.1, st.2 ++ checkTenantModel st.1)

def stepSummary (st : Settings × List Msg) : Settings × List Msg :=
  (st.1, st.2 ++ [.summary (tenantModelDisplay st.1)])

/-- One invocation of the command as a state transformer: final settings
state and the full output stream. -/
def handleS (s : Settings) : Settings × List Msg :=
  stepSummary (stepTenantModel (stepAllowedHosts (stepTenantDomain
    (stepSecretKey (stepDebug (stepBanner (s, [])))))))

/-- Which check of the spec's fixed order (§4.1) a block belongs to:
0 banner, 1 DEBUG, 2 SECRET_KEY, 3 TENANT_DOMAIN, 4 ALLOWED_HOSTS,
5 TENANT_MODEL, 6 summary. -/
def blockOf : Msg → Nat
  | .banner => 0
  | .debugWarning => 1
  | .secretKeyWarning => 2
  | .tenantDomainOk _ => 3
  | .tenantDomainMissing => 3
  | .allowedHostsOk => 4
  | .allowedHostsErr => 4
  | .tenantModelOk => 5
  | .summary _ => 6

/-! Helper lemmas: which blocks each check can emit. -/

theorem mem_handle (m : Msg) (s : Settings) :
    m ∈ handle s ↔
      m = .banner ∨ m ∈ checkDebug s ∨ m ∈ checkSecretKey s ∨
        m ∈ checkTenantDomain s ∨ m ∈ checkAllowedHosts s ∨
          m ∈ checkTenantModel s ∨ m = .summary (tenantModelDisplay s) := by
  simp [handle, or_assoc]

theorem mem_checkDebug (m : Msg) (s : Settings) :
    m ∈ checkDebug s ↔ m = .debugWarning ∧ s.DEBUG = true := by
  cases h : s.DEBUG <;> simp [checkDebug, h]

theorem mem_checkSecretKey (m : Msg) (s : Settings) :
    m ∈ checkSecretKey s ↔
      m = .secretKeyWarning ∧ containsSubstr "django-insecure" s.SECRET_KEY = true := by
  cases h : containsSubstr "django-insecure" s.SECRET_KEY <;> simp [checkSecretKey, h]

theorem mem_checkTenantDomain (m : Msg) (s : Settings) :
    m ∈ checkTenantDomain s ↔
      (∃ v, s.TENANT_DOMAIN = some v ∧ m = .tenantDomainOk v) ∨
        (s.TENANT_DOMAIN = none ∧ m = .tenantDomainMissing) := by
  cases h : s.TENANT_DOMAIN <;> simp [checkTenantDomain, h]

theorem mem_checkAllowedHosts (m : Msg) (s : Settings) :
    m ∈ checkAllowedHosts s ↔
      (m = .allowedHostsOk ∧ "*.zentoerp.com" ∈ s.ALLOWED_HOSTS) ∨
        (m = .allowedHostsErr ∧ "*.zentoerp.com" ∉ s.ALLOWED_HOSTS) := by
  by_cases h : "*.zentoerp.com" ∈ s.ALLOWED_HOSTS <;> simp [checkAllowedHosts, h]

theorem mem_checkTenantModel (m : Msg) (s : Settings) :
    m ∈ checkTenantModel s ↔
      m = .tenantModelOk ∧ s.TENANT_MODEL = some "tenants.Tenant" := by
  match h : s.TENANT_MODEL with
  | none => simp [checkTenantModel, h]
  | some tm =>
    by_cases htm : tm = "tenants.Tenant" <;> simp [checkTenantModel, h, htm]

/-- The value interpolated into the TENANT_DOMAIN success line occurs in
its rendered text. -/
theorem value_in_tenantDomainOk_text (v : String) :
    containsSubstr v (render (Msg.tenantDomainOk v)).2 = true := by
  simp only [containsSubstr, render, decide_eq_true_eq]
  exact ⟨("✅ TENANT_DOMAIN configurado: ").data, [],
    by simp [String.data_append]⟩

/-- Sample providers used to instantiate the theorems below. -/
def sampleFull : Settings :=
  ⟨true, "django-insecure-abc123", some "acme.zentoerp.com",
    ["zentoerp.com", "*.zentoerp.com"], some "tenants.Tenant"⟩

def sampleBare : Settings :=
  ⟨false, "prodkey", none, ["zentoerp.com"], some "other.Model"⟩

/-- C1: the tenant-model success line is emitted iff `TENANT_MODEL` is
present and exactly equals the string `tenants.Tenant`; for any other
value or for absence the check produces no output at all, in particular no
error line replaces it. -/
theorem tenantModel_success_iff (s : Settings) :
    (Msg.tenantModelOk ∈ handle s ↔ s.TENANT_MODEL = some "tenants.Tenant") ∧
      (s.TENANT_MODEL ≠ some "tenants.Tenant" → checkTenantModel s = []) := by
  constructor
  · simp [mem_handle, mem_checkDebug, mem_checkSecretKey, mem_checkTenantDomain,
      mem_checkAllowedHosts, mem_checkTenantModel]
  · intro h
    match hm : s.TENANT_MODEL with
    | none => simp [checkTenantModel, hm]
    | some m =>
      have hne : ¬m = "tenants.Tenant" := fun he => h (he ▸ hm)
      simp [checkTenantModel, hm, hne]

/-- C1 witness: concrete instances of both conjuncts. -/
theorem tenantModel_success_iff_witness :
    Msg.tenantModelOk ∈ handle sampleFull ∧ checkTenantModel sampleBare = [] :=
  ⟨(tenantModel_success_iff sampleFull).1.mpr (by decide),
    (tenantModel_success_iff sampleBare).2 (by decide)⟩

/-- C2: on a provider exposing the required attributes, the invocation
exits with code 0 and the summary block is the last block written,
whatever checks 2–6 decided. -/
theorem summary_always_and_exit_zero (s : Settings) :
    exitCode s.toOpt = 0 ∧
      (handle s).getLast? = some (Msg.summary (tenantModelDisplay s)) := by
  refine ⟨?_, ?_⟩
  · simp [exitCode, handleE, Settings.toOpt, readAttr, Except.bind]
  · simp only [handle]
    rw [List.getLast?_concat]

/-- C3: when `TENANT_DOMAIN` is present, the success line embedding its
value is written and the error line is not; when it is absent, the error
line is written and no success line is; so exactly one of the two appears
per invocation. -/
theorem tenantDomain_exactly_one (s : Settings) :
    (∀ v, s.TENANT_DOMAIN = some v →
        Msg.tenantDomainOk v ∈ handle s ∧ Msg.tenantDomainMissing ∉ handle s ∧
          containsSubstr v (render (Msg.tenantDomainOk v)).2 = true) ∧
      (s.TENANT_DOMAIN = none →
        Msg.tenantDomainMissing ∈ handle s ∧ ∀ v, Msg.tenantDomainOk v ∉ handle s) := by
  constructor
  · intro v hv
    refine ⟨?_, ?_, value_in_tenantDomainOk_text v⟩ <;>
      simp [mem_handle, mem_checkDebug, mem_checkSecretKey, mem_checkTenantDomain,
        mem_checkAllowedHosts, mem_checkTenantModel, hv]
  · intro hv
    constructor
    · simp [mem_handle, mem_checkDebug, mem_checkSecretKey, mem_checkTenantDomain,
        mem_checkAllowedHosts, mem_checkTenantModel, hv]
    · intro v
      simp [mem_handle, mem_checkDebug, mem_checkSecretKey, mem_checkTenantDomain,
        mem_checkAllowedHosts, mem_checkTenantModel, hv]

/-- C3 witness: concrete instances of both branches. -/
theorem tenantDomain_exactly_one_witness :
    (Msg.tenantDomainOk "acme.zentoerp.com" ∈ handle sampleFull ∧
        Msg.tenantDomainMissing ∉ handle sampleFull) ∧
      Msg.tenantDomainMissing ∈ handle sampleBare :=
  ⟨⟨((tenantDomain_exactly_one sampleFull).1 "acme.zentoerp.com" (by decide)).1,
      ((tenantDomain_exactly_one sampleFull).1 "acme.zentoerp.com" (by decide)).2.1⟩,
    ((tenantDomain_exactly_one sampleBare).2 (by decide)).1⟩

/-- C4: the insecure-key warning appears in the output iff the string
`django-insecure` occurs as a substring of `SECRET_KEY`. -/
theorem secretKey_warning_iff (s : Settings) :
    Msg.secretKeyWarning ∈ handle s ↔
      containsSubstr "django-insecure" s.SECRET_KEY = true := by
  simp [mem_handle, mem_checkDebug, mem_checkSecretKey, mem_checkTenantDomain,
    mem_checkAllowedHosts, mem_checkTenantModel]

/-- C5: the ALLOWED_HOSTS success line appears iff the literal string
`*.zentoerp.com` is an element of `ALLOWED_HOSTS`, and the error line
appears iff it is not. -/
theorem allowedHosts_success_iff (s : Settings) :
    (Msg.allowedHostsOk ∈ handle s ↔ "*.zentoerp.com" ∈ s.ALLOWED_HOSTS) ∧
      (Msg.allowedHostsErr ∈ handle s ↔ "*.zentoerp.com" ∉ s.ALLOWED_HOSTS) := by
  by_cases h : "*.zentoerp.com" ∈ s.ALLOWED_HOSTS <;>
    simp [mem_handle, mem_checkDebug, mem_checkSecretKey, mem_checkTenantDomain,
      mem_checkAllowedHosts, mem_checkTenantModel, h]

/-- C6: the development-mode warning appears in the output iff `DEBUG` is
true. -/
theorem debug_warning_iff (s : Settings) :
    Msg.debugWarning ∈ handle s ↔ s.DEBUG = true := by
  simp [mem_handle, mem_checkDebug, mem_checkSecretKey, mem_checkTenantDomain,
    mem_checkAllowedHosts, mem_checkTenantModel]

/-- C7: the output starts with the banner, ends with the summary block,
and the blocks in between are strictly ordered by check number: DEBUG,
SECRET_KEY, TENANT_DOMAIN, ALLOWED_HOSTS, TENANT_MODEL. -/
theorem output_order_fixed (s : Settings) :
    (handle s).head? = some Msg.banner ∧
      (handle s).getLast? = some (Msg.summary (tenantModelDisplay s)) ∧
        (handle s).Pairwise (fun a b => blockOf a < blockOf b) := by
  refine ⟨by simp [handle], ?_, ?_⟩
  · simp only [handle]
    rw [List.getLast?_concat]
  · obtain ⟨dbg, key, td, hosts, tm⟩ := s
    simp only [handle, checkDebug, checkSecretKey, checkTenantDomain,
      checkAllowedHosts, checkTenantModel, tenantModelDisplay]
    cases dbg <;>
      cases h1 : containsSubstr "django-insecure" key <;>
        cases td <;>
          by_cases h2 : "*.zentoerp.com" ∈ hosts <;>
            rcases tm with _ | m
    all_goals
      first
        | (by_cases h3 : m = "tenants.Tenant" <;>
            simp [h2, h3, List.pairwise_cons, blockOf])
        | simp [h2, List.pairwise_cons, blockOf]

/-- C8: if a required attribute (`DEBUG`, `SECRET_KEY` or `ALLOWED_HOSTS`)
is missing at read time, the exception is not caught anywhere in the
command: the invocation ends in an error and the exit code is non-zero. -/
theorem missing_required_attr_raises (s : OptSettings)
    (h : s.DEBUG = none ∨ s.SECRET_KEY = none ∨ s.ALLOWED_HOSTS = none) :
    (∃ e, handleE s = Except.error e) ∧ exitCode s ≠ 0 := by
  have herr : ∃ e, handleE s = Except.error e := by
    rcases h with h | h | h
    · exact ⟨"settings object has no attribute DEBUG",
        by simp [handleE, readAttr, h, Except.bind]⟩
    · cases hd : s.DEBUG
      · exact ⟨"settings object has no attribute DEBUG",
          by simp [handleE, readAttr, hd, Except.bind]⟩
      · exact ⟨"settings object has no attribute SECRET_KEY",
          by simp [handleE, readAttr, h, hd, Except.bind]⟩
    · cases hd : s.DEBUG
      · exact ⟨"settings object has no attribute DEBUG",
          by simp [handleE, readAttr, hd, Except.bind]⟩
      · cases hk : s.SECRET_KEY
        · exact ⟨"settings object has no attribute SECRET_KEY",
            by simp [handleE, readAttr, hd, hk, Except.bind]⟩
        · exact ⟨"settings object has no attribute ALLOWED_HOSTS",
            by simp [handleE, readAttr, h, hd, hk, Except.bind]⟩
  obtain ⟨e, he⟩ := herr
  exact ⟨⟨e, he⟩, by simp [exitCode, he]⟩

/-- C8 witness: a provider missing `SECRET_KEY` raises and exits non-zero. -/
theorem missing_required_attr_raises_witness :
    (∃ e, handleE ⟨some false, none, some "acme.zentoerp.com",
        some ["zentoerp.com"], none⟩ = Except.error e) ∧
      exitCode ⟨some false, none, some "acme.zentoerp.com",
        some ["zentoerp.com"], none⟩ ≠ 0 :=
  missing_required_attr_raises
    ⟨some false, none, some "acme.zentoerp.com", some ["zentoerp.com"], none⟩
    (by decide)

/-- C9: an invocation leaves the settings state unchanged and its only
effect is the output stream, which is exactly the one `handle` describes. -/
theorem invocation_frame (s : Settings) :
    (handleS s).1 = s ∧ (handleS s).2 = handle s := by
  constructor <;>
    simp [handleS, stepBanner, stepDebug, stepSecretKey, stepTenantDomain,
      stepAllowedHosts, stepTenantModel, stepSummary, handle]

/-- C10: the TENANT_DOMAIN check tests presence, not truthiness: with
`TENANT_DOMAIN` present but equal to the empty string, the success line
(embedding the empty value) is still written and the error line is not. -/
theorem tenantDomain_empty_still_success (s : Settings)
    (h : s.TENANT_DOMAIN = some "") :
    Msg.tenantDomainOk "" ∈ handle s ∧ Msg.tenantDomainMissing ∉ handle s := by
  constructor <;>
    simp [mem_handle, mem_checkDebug, mem_checkSecretKey, mem_checkTenantDomain,
      mem_checkAllowedHosts, mem_checkTenantModel, h]

/-- C10 witness: concrete provider with an empty `TENANT_DOMAIN`. -/
theorem tenantDomain_empty_still_success_witness :
    Msg.tenantDomainOk "" ∈
        handle ⟨false, "k", some "", ["zentoerp.com"], none⟩ ∧
      Msg.tenantDomainMissing ∉
        handle ⟨false, "k", some "", ["zentoerp.com"], none⟩ :=
  tenantDomain_empty_still_success
    ⟨false, "k", some "", ["zentoerp.com"], none⟩ (by decide)

end CheckProductionReady
